import Mathlib

/-!
Shallow embedding of the movie-recommender frontend (Next.js / TypeScript)
used to formally check the natural-language specification of the repository.

Each definition below translates one fragment of the TypeScript source:
  * the data model comes from the shared type declarations
    (`Movie`, `Genre`, `Recommendation`);
  * `calculateMetrics` and `declareWinner` come from `app/ab-testing/page.tsx`;
  * the "Algorithm Used" display comes from `app/analytics/page.tsx`;
  * the trending / top-rated / popular-genre derivations come from
    `fetchTrendingData` in the trending page;
  * the browse filter-and-sort pipeline comes from `fetchMovies` in
    `app/browse/page.tsx`;
  * the rating-distribution computation comes from `app/profile/page.tsx`;
  * the star-rating submission comes from `app/movie/[id]/page.tsx`;
  * the error branches of the data-fetching handlers are modelled as
    functions from the fetch outcome and the previous component state to
    the next state together with the list of emitted log lines.

JavaScript numbers are modelled as `ℚ` (for fractional quantities such as
`avg_rating` and scores), `Nat` (for counts and ids) and `Int` (for years);
JavaScript `null`/`undefined` fields are modelled with `Option`.  The stable
sort `Array.prototype.sort` is modelled by `List.insertionSort`, which is
stable and sorts with respect to the comparator-induced relation.
-/

/-- A movie genre, from the shared `Genre` interface: `id`, `name`. -/
structure Genre where
  id : Nat
  name : String
deriving DecidableEq, Repr

/-- A catalog movie, from the shared `Movie` interface: `id`, `title`,
`release_year: number | null`, `overview: string | null`,
`poster_path: string | null`, `avg_rating`, `rating_count`, `genres`,
`user_rating: number | null`. -/
structure Movie where
  id : Nat
  title : String
  release_year : Option Int
  overview : Option String
  poster_path : Option String
  avg_rating : ℚ
  rating_count : Nat
  genres : List Genre
  user_rating : Option ℚ
deriving DecidableEq, Repr

/-- A recommendation item, from the shared `Recommendation` interface:
`movie`, `score`, `reason`.  The score is `Option ℚ` because the A/B-testing
page defends against a missing score with `rec.score || 0`. -/
structure RecItem where
  movie : Movie
  score : Option ℚ
  reason : String
deriving DecidableEq, Repr

/-- The metric triple returned by `calculateMetrics` in
`app/ab-testing/page.tsx`: average match score, genre diversity
(number of distinct genre names) and coverage (number of unique movie ids). -/
structure Metrics where
  avgScore : ℚ
  diversity : Nat
  coverage : Nat
deriving DecidableEq, Repr

/-- `calculateMetrics` from `app/ab-testing/page.tsx` (lines 60–75):
returns `{avgScore: 0, diversity: 0, coverage: 0}` for an empty list;
otherwise the mean of `rec.score || 0`, the size of the set of genre names
appearing on the recommended movies, and the number of distinct movie ids. -/
def calculateMetrics (recommendations : List RecItem) : Metrics :=
  if recommendations.length = 0 then ⟨0, 0, 0⟩
  else
    { avgScore :=
        (recommendations.foldl (fun sum rec => sum + (rec.score.getD 0)) 0) /
          (recommendations.length : ℚ)
      diversity :=
        ((recommendations.flatMap (fun rec => rec.movie.genres.map (·.name))).dedup).length
      coverage := ((recommendations.map (fun rec => rec.movie.id)).dedup).length }

/-- The two sides of the A/B test on the A/B-testing page. -/
inductive ABWinner where
  | A
  | B
deriving DecidableEq, Repr

/-- The weighted composite score used by `declareWinner` in
`app/ab-testing/page.tsx`: `avgScore * 0.6 + diversity * 0.2 + coverage * 0.2`. -/
def compositeScore (m : Metrics) : ℚ :=
  m.avgScore * 0.6 + (m.diversity : ℚ) * 0.2 + (m.coverage : ℚ) * 0.2

/-- `declareWinner` from `app/ab-testing/page.tsx` (lines 80–85):
`setWinner(scoreA > scoreB ? 'A' : 'B')`. -/
def declareWinner (mA mB : Metrics) : ABWinner :=
  if compositeScore mA > compositeScore mB then .A else .B

/-- The "Algorithm Used" display of `app/analytics/page.tsx` (line 345):
`userStats.rating_count >= 5 ? 'Hybrid' : 'Content-Based'`. -/
def algorithmUsed (rating_count : Nat) : String :=
  if 5 ≤ rating_count then "Hybrid" else "Content-Based"

/-- Relation induced by the trending comparator
`(a, b) => (b.rating_count || 0) - (a.rating_count || 0)`
(`fetchTrendingData`, trending page): `a` may come before `b` exactly when
the comparator is `≤ 0`, i.e. rating_count descending. -/
def rcDesc (a b : Movie) : Prop := b.rating_count ≤ a.rating_count

instance : DecidableRel rcDesc := fun _ _ => Nat.decLe _ _

instance : IsTotal Movie rcDesc := ⟨fun a b => Nat.le_total b.rating_count a.rating_count⟩

instance : IsTrans Movie rcDesc := ⟨fun _ _ _ h h' => le_trans h' h⟩

/-- Relation induced by the top-rated / browse-"rating" comparator
`(a, b) => (b.avg_rating || 0) - (a.avg_rating || 0)`: avg_rating descending. -/
def avgDesc (a b : Movie) : Prop := b.avg_rating ≤ a.avg_rating

instance : DecidableRel avgDesc := fun _ _ => inferInstanceAs (Decidable (_ ≤ _))

instance : IsTotal Movie avgDesc := ⟨fun a b => le_total b.avg_rating a.avg_rating⟩

instance : IsTrans Movie avgDesc := ⟨fun _ _ _ h h' => le_trans h' h⟩

/-- Relation induced by the browse "year" comparator
`(a, b) => (b.release_year || 0) - (a.release_year || 0)`: year descending,
a missing year coerced to 0. -/
def yearDesc (a b : Movie) : Prop := b.release_year.getD 0 ≤ a.release_year.getD 0

instance : DecidableRel yearDesc := fun _ _ => inferInstanceAs (Decidable (_ ≤ _))

/-- Relation induced by the browse "title" comparator
`(a, b) => a.title.localeCompare(b.title)`, modelled as the string order. -/
def titleAsc (a b : Movie) : Prop := a.title ≤ b.title

instance : DecidableRel titleAsc := fun _ _ => inferInstanceAs (Decidable (_ ≤ _))

/-- The raw integer value of the trending comparator
`(b.rating_count || 0) - (a.rating_count || 0)`. -/
def trendCmp (a b : Movie) : Int := (b.rating_count : Int) - (a.rating_count : Int)

/-- The trending list of `fetchTrendingData` (trending page, lines 392–394):
`[...allMovies].sort((a, b) => (b.rating_count || 0) - (a.rating_count || 0)).slice(0, 20)`. -/
def trendingOf (allMovies : List Movie) : List Movie :=
  (List.insertionSort rcDesc allMovies).take 20

/-- The top-rated list of `fetchTrendingData` (trending page, lines 397–400):
filter `rating_count >= 10 && avg_rating >= 4.0`, sort by avg_rating
descending, `slice(0, 20)`. -/
def topRatedOf (allMovies : List Movie) : List Movie :=
  (List.insertionSort avgDesc
    (allMovies.filter (fun m => decide (10 ≤ m.rating_count ∧ 4 ≤ m.avg_rating)))).take 20

/-- Per-genre accumulator of `fetchTrendingData` (trending page): name,
accumulated `rating_count`, accumulated `avg_rating`. -/
structure GenreStats where
  name : String
  count : Nat
  totalRating : ℚ
deriving DecidableEq, Repr

/-- One `genreMap.set` step of `fetchTrendingData`: a JavaScript `Map` keeps
insertion order, updating in place when the key is present and appending
otherwise. -/
def genreMapSet (acc : List GenreStats) (gname : String) (rc : Nat) (ar : ℚ) :
    List GenreStats :=
  if acc.any (fun s => s.name == gname) then
    acc.map (fun s =>
      if s.name == gname then ⟨s.name, s.count + rc, s.totalRating + ar⟩ else s)
  else acc ++ [⟨gname, rc, ar⟩]

/-- The genre accumulation loop of `fetchTrendingData` (trending page,
lines 403–421): for every movie and every one of its genres, add the movie's
`rating_count` to the genre's count and its `avg_rating` to the genre's total. -/
def genreMapOf (allMovies : List Movie) : List GenreStats :=
  allMovies.foldl
    (fun acc movie =>
      movie.genres.foldl
        (fun acc2 g => genreMapSet acc2 g.name movie.rating_count movie.avg_rating)
        acc)
    []

/-- Relation induced by the genre comparator `(a, b) => b.count - a.count`. -/
def gcountDesc (a b : GenreStats) : Prop := b.count ≤ a.count

instance : DecidableRel gcountDesc := fun _ _ => Nat.decLe _ _

/-- The popular-genre list of `fetchTrendingData` (trending page,
lines 423–425): sort the accumulated genre stats by count descending and
`slice(0, 10)`. -/
def popularGenresOf (allMovies : List Movie) : List GenreStats :=
  (List.insertionSort gcountDesc (genreMapOf allMovies)).take 10

/-- The full derivation of `fetchTrendingData` (trending page, lines 385–433)
from one movies snapshot: the trending list, the top-rated list and the
popular-genre list. -/
def fetchTrendingData (allMovies : List Movie) :
    List Movie × List Movie × List GenreStats :=
  (trendingOf allMovies, topRatedOf allMovies, popularGenresOf allMovies)

/-- The three browse sort modes of `app/browse/page.tsx`. -/
inductive SortBy where
  | title
  | year
  | rating
deriving DecidableEq, Repr

/-- The sort step of `fetchMovies` in `app/browse/page.tsx` (lines 69–75). -/
def browseSort : SortBy → List Movie → List Movie
  | .title, ms => List.insertionSort titleAsc ms
  | .year, ms => List.insertionSort yearDesc ms
  | .rating, ms => List.insertionSort avgDesc ms

/-- The filter-and-sort pipeline of `fetchMovies` in `app/browse/page.tsx`
(lines 46–77).  `selectedGenre = none` models the `'all'` choice; the year
filter runs under the JavaScript truthiness test `if (minYear || maxYear)`,
coercing a missing `release_year` to 0; the rating filter runs only when
`minRating > 0`. -/
def fetchMovies (selectedGenre : Option String) (minYear maxYear : Int)
    (minRating : ℚ) (sortBy : SortBy) (movies : List Movie) : List Movie :=
  let f1 := match selectedGenre with
    | none => movies
    | some g => movies.filter (fun m => m.genres.any (fun gr => gr.name == g))
  let f2 :=
    if minYear ≠ 0 ∨ maxYear ≠ 0 then
      f1.filter (fun m =>
        decide (minYear ≤ m.release_year.getD 0 ∧ m.release_year.getD 0 ≤ maxYear))
    else f1
  let f3 :=
    if 0 < minRating then f2.filter (fun m => decide (minRating ≤ m.avg_rating))
    else f2
  browseSort sortBy f3

/-- One loop step of the rating-distribution computation in
`app/profile/page.tsx` (lines 99–103): `if (r.rating >= 1 && r.rating <= 5)
ratingDistribution[r.rating - 1]++`. -/
def distStep (v : List Nat) (r : Int) : List Nat :=
  if 1 ≤ r ∧ r ≤ 5 then
    v.set (r - 1).toNat ((v.getD (r - 1).toNat 0) + 1)
  else v

/-- The rating-distribution array of `app/profile/page.tsx` (lines 98–103):
start from `[0, 0, 0, 0, 0]` and bump the star's slot for every fetched
rating whose value lies in `[1, 5]`. -/
def ratingDistribution (userRatings : List Int) : List Nat :=
  userRatings.foldl distStep [0, 0, 0, 0, 0]

/-- The star values of the rating buttons in `app/movie/[id]/page.tsx`
(line 273): `[1, 2, 3, 4, 5].map((star) => ...)`. -/
def starButtons : List Nat := [1, 2, 3, 4, 5]

/-- The payload of one rating submission: `ratingAPI.rateMovie(movieId, rating)`
posts `{ movie_id: movieId, rating }`. -/
structure RateCall where
  movie_id : Nat
  rating : Nat
deriving DecidableEq, Repr

/-- `handleRating` from `app/movie/[id]/page.tsx` (lines 72–80): passes the
received star value unchanged to `ratingAPI.rateMovie`. -/
def handleRating (movieId : Nat) (rating : Nat) : RateCall :=
  ⟨movieId, rating⟩

/-- All `rateMovie` calls the movie-details page can ever issue: `handleRating`
is invoked only from the star buttons (line 276), one per element of
`[1, 2, 3, 4, 5]`. -/
def rateCallsOf (movieId : Nat) : List RateCall :=
  starButtons.map (handleRating movieId)

/-- A similar-movie item as returned by the similar-movies endpoint:
`response.data.similar_movies.map((item) => item.movie)`. -/
structure SimilarItem where
  movie : Movie
deriving DecidableEq, Repr

/-- `fetchRecommendations` from `app/recommendations/page.tsx` (lines 27–37),
as a function from the fetch outcome and the previous component state to the
next state and the emitted log lines.  On success the state becomes
`response.data.recommendations || []` and nothing is logged; on failure the
handler runs `console.error('Error:', error)` and leaves the state untouched. -/
def fetchRecommendations (outcome : Except String (Option (List RecItem)))
    (prev : List RecItem) : List RecItem × List String :=
  match outcome with
  | .ok d => (d.getD [], [])
  | .error e => (prev, ["Error: " ++ e])

/-- `fetchSimilarMovies` from `app/movie/[id]/page.tsx` (lines 60–70): on
success the state is replaced only when `response.data.similar_movies` is
present; on failure the handler runs
`console.error('Error fetching similar movies:', error)` and leaves the state
untouched. -/
def fetchSimilarMovies (outcome : Except String (Option (List SimilarItem)))
    (prev : List Movie) : List Movie × List String :=
  match outcome with
  | .ok (some items) => (items.map (·.movie), [])
  | .ok none => (prev, [])
  | .error e => (prev, ["Error fetching similar movies: " ++ e])

/-- The inner ratings fetch of `fetchProfileData` in `app/profile/page.tsx`
(lines 29–35): on success the state becomes `ratingsResponse.data || []`; on
failure the handler runs `console.log('Could not fetch ratings')` and sets
`userRatings` to `[]`. -/
def fetchProfileRatings (outcome : Except String (Option (List Int))) :
    List Int × List String :=
  match outcome with
  | .ok d => (d.getD [], [])
  | .error _ => ([], ["Could not fetch ratings"])

/-- The score values of a score map (movie id → raw score). -/
def scoreVals (mp : List (Nat × ℚ)) : List ℚ := mp.map (·.2)

/-- Minimum of a list of scores (0 on the empty list, which never arises for
a map that scored at least one movie). -/
def listMin : List ℚ → ℚ
  | [] => 0
  | x :: xs => xs.foldl min x

/-- Maximum of a list of scores (0 on the empty list). -/
def listMax : List ℚ → ℚ
  | [] => 0
  | x :: xs => xs.foldl max x

/-- Modelled from the spec: the Hybrid Combiner of the recommendation engine
(spec §4.5) is backend code not present under `src/`.  Min–max normalization
of one raw score against its score map: `(x - lo) / (hi - lo)`, and "if a map
has a single distinct value, treat all its scores as 1.0 to avoid
divide-by-zero". -/
def minmaxNorm (mp : List (Nat × ℚ)) (x : ℚ) : ℚ :=
  let lo := listMin (scoreVals mp)
  let hi := listMax (scoreVals mp)
  if hi = lo then 1 else (x - lo) / (hi - lo)

/-- Raw-score lookup in a score map (first entry with the given movie id). -/
def scoreLookup (mp : List (Nat × ℚ)) (movieId : Nat) : Option ℚ :=
  (mp.find? (fun p => p.1 == movieId)).map (·.2)

/-- Modelled from the spec: the fused score of the Hybrid Combiner
(spec §4.5).  For a movie present in both maps,
`w_c · norm_collab + w_t · norm_content`; for a movie present in only one
map, that single normalized score (weight renormalized to 1.0); for a movie
in neither map, no score. -/
def hybridFuse (wc wt : ℚ) (collab content : List (Nat × ℚ)) (movieId : Nat) :
    Option ℚ :=
  match scoreLookup collab movieId, scoreLookup content movieId with
  | some c, some t => some (wc * minmaxNorm collab c + wt * minmaxNorm content t)
  | some c, none => some (minmaxNorm collab c)
  | none, some t => some (minmaxNorm content t)
  | none, none => none

/-- The per-user statistics block consumed by the profile and analytics pages
(`stats?.user_stats`): the `rating_count` field is supplied by the stats
endpoint, independently of the separately fetched ratings list. -/
structure UserStats where
  rating_count : Nat
deriving DecidableEq, Repr

/-- Sample movie with a release year (used as a concrete test input). -/
def movieA : Movie :=
  { id := 1, title := "A", release_year := some 2000, overview := none,
    poster_path := none, avg_rating := 0, rating_count := 5, genres := [],
    user_rating := none }

/-- Sample movie without a release year and with the same rating_count as
`movieA` but a larger id (used as a concrete test input). -/
def movieB : Movie :=
  { id := 2, title := "B", release_year := none, overview := none,
    poster_path := none, avg_rating := 0, rating_count := 5, genres := [],
    user_rating := none }

/-- Sample recommendation item (used as a concrete test input). -/
def recSample : RecItem := { movie := movieA, score := some 1, reason := "r" }

section HelperLemmas

lemma foldl_min_le_init (xs : List ℚ) (a : ℚ) : xs.foldl min a ≤ a := by
  induction xs generalizing a with
  | nil => simp
  | cons x xs ih => exact le_trans (ih (min a x)) (min_le_left a x)

lemma foldl_min_le_mem {v : ℚ} {xs : List ℚ} (a : ℚ) (h : v ∈ xs) :
    xs.foldl min a ≤ v := by
  induction xs generalizing a with
  | nil => cases h
  | cons x xs ih =>
    rcases List.mem_cons.mp h with rfl | h'
    · exact le_trans (foldl_min_le_init xs (min a v)) (min_le_right a v)
    · exact ih (min a x) h'

lemma init_le_foldl_max (xs : List ℚ) (a : ℚ) : a ≤ xs.foldl max a := by
  induction xs generalizing a with
  | nil => simp
  | cons x xs ih => exact le_trans (le_max_left a x) (ih (max a x))

lemma mem_le_foldl_max {v : ℚ} {xs : List ℚ} (a : ℚ) (h : v ∈ xs) :
    v ≤ xs.foldl max a := by
  induction xs generalizing a with
  | nil => cases h
  | cons x xs ih =>
    rcases List.mem_cons.mp h with rfl | h'
    · exact le_trans (le_max_right a v) (init_le_foldl_max xs (max a v))
    · exact ih (max a x) h'

lemma listMin_le_mem {v : ℚ} {xs : List ℚ} (h : v ∈ xs) : listMin xs ≤ v := by
  cases xs with
  | nil => cases h
  | cons x xs =>
    rcases List.mem_cons.mp h with rfl | h'
    · exact foldl_min_le_init xs v
    · exact foldl_min_le_mem x h'

lemma mem_le_listMax {v : ℚ} {xs : List ℚ} (h : v ∈ xs) : v ≤ listMax xs := by
  cases xs with
  | nil => cases h
  | cons x xs =>
    rcases List.mem_cons.mp h with rfl | h'
    · exact init_le_foldl_max xs v
    · exact mem_le_foldl_max x h'

lemma minmaxNorm_bounds {mp : List (Nat × ℚ)} {x : ℚ} (hx : x ∈ scoreVals mp) :
    0 ≤ minmaxNorm mp x ∧ minmaxNorm mp x ≤ 1 := by
  unfold minmaxNorm
  have hlo : listMin (scoreVals mp) ≤ x := listMin_le_mem hx
  have hhi : x ≤ listMax (scoreVals mp) := mem_le_listMax hx
  by_cases h : listMax (scoreVals mp) = listMin (scoreVals mp)
  · simp [h]
  · have hlt : listMin (scoreVals mp) < listMax (scoreVals mp) :=
      lt_of_le_of_ne (le_trans hlo hhi) (Ne.symm h)
    simp only [if_neg h]
    constructor
    · exact div_nonneg (by linarith) (by linarith)
    · rw [div_le_one (by linarith)]
      linarith

lemma scoreLookup_mem {mp : List (Nat × ℚ)} {movieId : Nat} {c : ℚ}
    (h : scoreLookup mp movieId = some c) : c ∈ scoreVals mp := by
  unfold scoreLookup at h
  rcases Option.map_eq_some'.mp h with ⟨p, hp, hc⟩
  exact hc ▸ List.mem_map.mpr ⟨p, List.mem_of_find?_eq_some hp, rfl⟩

lemma foldl_add_map (f : RecItem → ℚ) (recs : List RecItem) (a : ℚ) :
    recs.foldl (fun s r => s + f r) a = a + (recs.map f).sum := by
  induction recs generalizing a with
  | nil => simp
  | cons r rs ih => simp [ih]; ring

lemma sum_scores_bounds {recs : List RecItem}
    (h : ∀ r ∈ recs, 0 ≤ r.score.getD 0 ∧ r.score.getD 0 ≤ 1) :
    0 ≤ (recs.map (fun r => r.score.getD 0)).sum ∧
      (recs.map (fun r => r.score.getD 0)).sum ≤ (recs.length : ℚ) := by
  induction recs with
  | nil => simp
  | cons r rs ih =>
    have hr := h r (List.mem_cons_self r rs)
    have ih' := ih (fun x hx => h x (List.mem_cons_of_mem r hx))
    simp only [List.map_cons, List.sum_cons, List.length_cons]
    constructor
    · linarith [ih'.1, hr.1]
    · push_cast
      linarith [ih'.2, hr.2]

end HelperLemmas

section DistributionLemmas

lemma distStep_length (v : List Nat) (r : Int) : (distStep v r).length = v.length := by
  unfold distStep
  split
  · exact List.length_set v _ _
  · rfl

lemma distStep_sum (v : List Nat) (r : Int) (hv : v.length = 5) :
    (distStep v r).sum = v.sum + (if 1 ≤ r ∧ r ≤ 5 then 1 else 0) := by
  unfold distStep
  by_cases h : 1 ≤ r ∧ r ≤ 5
  · simp only [if_pos h]
    obtain ⟨h1, h5⟩ := h
    rcases v with _ | ⟨a, _ | ⟨b, _ | ⟨c, _ | ⟨d, _ | ⟨e, _ | ⟨f, t⟩⟩⟩⟩⟩⟩ <;>
      simp_all
    interval_cases r <;> simp [List.set] <;> omega
  · simp [if_neg h]

lemma foldl_distStep_sum (rs : List Int) (v : List Nat) (hv : v.length = 5) :
    (rs.foldl distStep v).sum =
      v.sum + (rs.filter (fun r => decide (1 ≤ r ∧ r ≤ 5))).length := by
  induction rs generalizing v with
  | nil => simp
  | cons r rs ih =>
    simp only [List.foldl_cons, List.filter_cons]
    rw [ih (distStep v r) (by rw [distStep_length]; exact hv), distStep_sum v r hv]
    by_cases h : 1 ≤ r ∧ r ≤ 5
    · simp only [decide_eq_true h, if_true, if_pos h, List.length_cons]
      omega
    · simp [h]

lemma ratingDistribution_sum (rs : List Int) :
    (ratingDistribution rs).sum =
      (rs.filter (fun r => decide (1 ≤ r ∧ r ≤ 5))).length := by
  unfold ratingDistribution
  rw [foldl_distStep_sum rs [0, 0, 0, 0, 0] rfl]
  simp

end DistributionLemmas

/-- C1 counterexample: the claim sends a user with 0 ratings to the
Popularity fallback, but the "Algorithm Used" computation of the analytics
page (`rating_count >= 5 ? 'Hybrid' : 'Content-Based'`) resolves
`rating_count = 0` to `"Content-Based"`, not `"Popularity"`. -/
theorem C1_counterexample :
    algorithmUsed 0 = "Content-Based" ∧ algorithmUsed 0 ≠ "Popularity" := by
  constructor
  · rfl
  · decide

/-- C1 (amended): the "Algorithm Used" computation of the analytics page is a
two-case table over the user's rating count: every `n ≥ 5` resolves to
`"Hybrid"` and every `n < 5` — including `n = 0` — resolves to
`"Content-Based"`; no rating count resolves to a Popularity fallback. -/
theorem C1_algorithm_table (n : Nat) :
    (5 ≤ n ∧ algorithmUsed n = "Hybrid") ∨
      (n < 5 ∧ algorithmUsed n = "Content-Based") := by
  by_cases h : 5 ≤ n
  · exact Or.inl ⟨h, by simp [algorithmUsed, h]⟩
  · exact Or.inr ⟨by omega, by simp [algorithmUsed, h]⟩

/-- C5: the trending/top-rated/popular-genre derivations and
`calculateMetrics` are deterministic functions of their input snapshot:
evaluating either twice on the same data yields identical results. -/
theorem C5_deterministic (ms ms' : List Movie) (rs rs' : List RecItem)
    (hms : ms = ms') (hrs : rs = rs') :
    fetchTrendingData ms = fetchTrendingData ms' ∧
      calculateMetrics rs = calculateMetrics rs' := by
  subst hms; subst hrs; exact ⟨rfl, rfl⟩

/-- C5 witness: determinism instantiated on a concrete snapshot. -/
theorem C5_witness :
    fetchTrendingData [movieA] = fetchTrendingData [movieA] ∧
      calculateMetrics [recSample] = calculateMetrics [recSample] :=
  C5_deterministic [movieA] [movieA] [recSample] [recSample] rfl rfl

/-- C6: every rating submission the movie-details page can issue carries an
integer star value between 1 and 5: `handleRating` is invoked only from the
star buttons over `[1, 2, 3, 4, 5]`, and it forwards the value unchanged to
`rateMovie`. -/
theorem C6_rating_range (movieId : Nat) (c : RateCall)
    (hc : c ∈ rateCallsOf movieId) : 1 ≤ c.rating ∧ c.rating ≤ 5 := by
  simp only [rateCallsOf, starButtons, handleRating, List.map_cons,
    List.map_nil, List.mem_cons, List.not_mem_nil, or_false] at hc
  rcases hc with rfl | rfl | rfl | rfl | rfl <;> exact ⟨by norm_num, by norm_num⟩

/-- C6 witness: the 3-star button on movie 7 submits a value in `[1, 5]`. -/
theorem C6_witness :
    1 ≤ (handleRating 7 3).rating ∧ (handleRating 7 3).rating ≤ 5 :=
  C6_rating_range 7 (handleRating 7 3) (by decide)

/-- C10: `declareWinner` declares A the winner exactly when A's weighted
composite (`avgScore * 0.6 + diversity * 0.2 + coverage * 0.2`) strictly
exceeds B's; in every other case, an exact tie included, B is declared. -/
theorem C10_declareWinner (mA mB : Metrics) :
    (declareWinner mA mB = ABWinner.A ↔ compositeScore mB < compositeScore mA) ∧
      (compositeScore mA = compositeScore mB →
        declareWinner mA mB = ABWinner.B) := by
  by_cases h : compositeScore mB < compositeScore mA
  · refine ⟨⟨fun _ => h, fun _ => ?_⟩, fun he => ?_⟩
    · simp [declareWinner, h]
    · exact absurd (he ▸ h) (lt_irrefl _)
  · refine ⟨⟨fun hA => ?_, fun hlt => absurd hlt h⟩, fun _ => ?_⟩
    · simp [declareWinner, h] at hA
    · simp [declareWinner, h]

/-- C10 witness: with identical metrics the composites tie and B wins. -/
theorem C10_witness : declareWinner ⟨0, 0, 0⟩ ⟨0, 0, 0⟩ = ABWinner.B :=
  (C10_declareWinner ⟨0, 0, 0⟩ ⟨0, 0, 0⟩).2 rfl

/-- C7 counterexample: the claim says every failing fetch sets the result
state to the empty list, but a failing recommendations fetch leaves the
previous (non-empty) state in place: it only logs. -/
theorem C7_counterexample :
    (fetchRecommendations (.error "network error") [recSample]).1 ≠ [] := by
  simp [fetchRecommendations]

/-- C7 (amended): no fetch failure is silent — each of the three error
branches emits a log line; the ratings fetch additionally resets its state to
`[]`, while the recommendations and similar-movies handlers leave the
previous state unchanged rather than clearing it. -/
theorem C7_error_logging (e : String) (prevR : List RecItem)
    (prevS : List Movie) :
    ((fetchRecommendations (.error e) prevR).2 ≠ [] ∧
        (fetchRecommendations (.error e) prevR).1 = prevR) ∧
      ((fetchSimilarMovies (.error e) prevS).2 ≠ [] ∧
        (fetchSimilarMovies (.error e) prevS).1 = prevS) ∧
      ((fetchProfileRatings (.error e)).2 ≠ [] ∧
        (fetchProfileRatings (.error e)).1 = []) := by
  refine ⟨⟨?_, rfl⟩, ⟨?_, rfl⟩, ⟨?_, rfl⟩⟩ <;>
    simp [fetchRecommendations, fetchSimilarMovies, fetchProfileRatings]

/-- C8: under the default browse filters (`selectedGenre = 'all'`,
`minYear = 1900`, `maxYear = 2025`, `minRating = 0`) every movie whose
`release_year` is null is excluded from the browse list, for every sort mode:
the null year is coerced to 0, which fails `year >= 1900`. -/
theorem C8_null_year_excluded (ms : List Movie) (sortBy : SortBy) (m : Movie)
    (hm : m.release_year = none) :
    m ∉ fetchMovies none 1900 2025 0 sortBy ms := by
  intro hmem
  unfold fetchMovies at hmem
  norm_num at hmem
  have hmem' :
      m ∈ ms.filter (fun m =>
        decide ((1900 : Int) ≤ m.release_year.getD 0) &&
          decide (m.release_year.getD 0 ≤ (2025 : Int))) := by
    cases sortBy <;> simp only [browseSort] at hmem <;>
      exact ((List.perm_insertionSort _ _).mem_iff).mp hmem
  have hp := (List.mem_filter.mp hmem').2
  rw [hm] at hp
  simp at hp

/-- C8 witness: the concrete movie with a null release year is excluded from
the default browse view built over a snapshot containing it. -/
theorem C8_witness :
    movieB ∉ fetchMovies none 1900 2025 0 SortBy.title [movieB] :=
  C8_null_year_excluded [movieB] SortBy.title movieB rfl

/-- C9: `calculateMetrics` is total and never divides by zero: the empty list
returns all-zero metrics via the early guard; on a non-empty list the average
is the score sum divided by the strictly positive length; and a missing
per-item score contributes 0, exactly as an explicit 0 score would. -/
theorem C9_calculateMetrics_total :
    calculateMetrics [] = ⟨0, 0, 0⟩ ∧
      (∀ recs : List RecItem, recs ≠ [] →
        (0 : ℚ) < (recs.length : ℚ) ∧
          (calculateMetrics recs).avgScore =
            (recs.map (fun r => r.score.getD 0)).sum / (recs.length : ℚ)) ∧
      (∀ (m : Movie) (reason : String) (recs : List RecItem),
        calculateMetrics ({ movie := m, score := none, reason := reason } :: recs) =
          calculateMetrics ({ movie := m, score := some 0, reason := reason } :: recs)) := by
  refine ⟨rfl, fun recs hne => ⟨?_, ?_⟩, fun m reason recs => rfl⟩
  · have : 0 < recs.length := List.length_pos.mpr hne
    exact_mod_cast this
  · have hlen : recs.length ≠ 0 := fun h => hne (List.length_eq_zero.mp h)
    simp only [calculateMetrics, if_neg hlen]
    rw [foldl_add_map (fun r => r.score.getD 0) recs 0, zero_add]

/-- C9 witness: the guard and the average instantiated on concrete lists. -/
theorem C9_witness :
    (0 : ℚ) < (([recSample] : List RecItem).length : ℚ) ∧
      (calculateMetrics [recSample]).avgScore =
        (([recSample] : List RecItem).map (fun r => r.score.getD 0)).sum /
          (([recSample] : List RecItem).length : ℚ) :=
  (C9_calculateMetrics_total.2.1 [recSample] (by simp))

/-- C3 counterexample: the distribution is built from the separately fetched
ratings list while `rating_count` comes from the stats endpoint; when the
ratings fetch yields `[]` but the stats report `rating_count = 1`, the
distribution sums to 0, not to the supplied count. -/
theorem C3_counterexample :
    (ratingDistribution []).sum ≠ (UserStats.mk 1).rating_count := by
  decide

/-- C3 (amended): the rating-distribution values always sum to the number of
fetched rating entries whose value lies in [1,5]; this equals the separately
supplied `rating_count` exactly when every fetched entry is in range and the
supplied count matches the number of fetched entries. -/
theorem C3_distribution_sum (userRatings : List Int) (stats : UserStats) :
    (ratingDistribution userRatings).sum =
        (userRatings.filter (fun r => decide (1 ≤ r ∧ r ≤ 5))).length ∧
      ((∀ r ∈ userRatings, 1 ≤ r ∧ r ≤ 5) →
        stats.rating_count = userRatings.length →
        (ratingDistribution userRatings).sum = stats.rating_count) := by
  refine ⟨ratingDistribution_sum userRatings, fun hall hlen => ?_⟩
  rw [ratingDistribution_sum userRatings, hlen,
    List.filter_eq_self.mpr (fun r hr => decide_eq_true (hall r hr))]

/-- C3 witness: the spec's scenario of the ratings `{5,5,4,3,5}` with a stats
endpoint reporting `rating_count = 5`. -/
theorem C3_witness :
    (ratingDistribution [5, 5, 4, 3, 5]).sum = (UserStats.mk 5).rating_count :=
  (C3_distribution_sum [5, 5, 4, 3, 5] ⟨5⟩).2 (by decide) (by decide)

/-- C2 counterexample: the trending comparator compares the two distinct
movies `movieA` (id 1) and `movieB` (id 2) — equal rating_count — as equal
(comparator value 0), and the trending sort keeps them in input order instead
of breaking the tie by movie id ascending: `[movieB, movieA]` stays
`[movieB, movieA]`, not `[movieA, movieB]`. -/
theorem C2_counterexample :
    trendCmp movieB movieA = 0 ∧ movieA.id ≠ movieB.id ∧
      trendingOf [movieB, movieA] = [movieB, movieA] := by
  refine ⟨by decide, by decide, ?_⟩
  rfl

/-- C2 (amended): each displayed ranking is sorted by its single comparator
key descending and truncated — trending by rating_count descending cut to 20,
the browse "rating" sort and the top-rated list by avg_rating descending (the
latter cut to 20); ties are left in snapshot order by the stable sort, with
no rating_count/movie-id tie-break chain. -/
theorem C2_rankings_sorted (ms : List Movie) :
    List.Sorted rcDesc (trendingOf ms) ∧ (trendingOf ms).length ≤ 20 ∧
      List.Sorted avgDesc (browseSort SortBy.rating ms) ∧
      List.Sorted avgDesc (topRatedOf ms) ∧ (topRatedOf ms).length ≤ 20 := by
  refine ⟨?_, ?_, ?_, ?_, ?_⟩
  · exact List.Pairwise.sublist (List.take_sublist 20 _)
      (List.sorted_insertionSort rcDesc ms)
  · simp only [trendingOf, List.length_take]
    omega
  · simp only [browseSort]
    exact List.sorted_insertionSort avgDesc ms
  · exact List.Pairwise.sublist (List.take_sublist 20 _)
      (List.sorted_insertionSort avgDesc _)
  · simp only [topRatedOf, List.length_take]
    omega

/-- C4: every fused hybrid score (spec-modelled Hybrid Combiner, weights
nonnegative and summing to 1) lies in [0,1]; and whenever every per-item
score of a recommendation list lies in [0,1], the average match score of
`calculateMetrics` lies in [0,1] and the displayed match percentage
(`score * 100`) lies in [0,100]. -/
theorem C4_scores_in_unit_interval (wc wt : ℚ)
    (collab content : List (Nat × ℚ)) (movieId : Nat) (s : ℚ)
    (recs : List RecItem)
    (hwc : 0 ≤ wc) (hwt : 0 ≤ wt) (hsum : wc + wt = 1) :
    (hybridFuse wc wt collab content movieId = some s → 0 ≤ s ∧ s ≤ 1) ∧
      ((∀ r ∈ recs, 0 ≤ r.score.getD 0 ∧ r.score.getD 0 ≤ 1) →
        0 ≤ (calculateMetrics recs).avgScore ∧
          (calculateMetrics recs).avgScore ≤ 1 ∧
          0 ≤ (calculateMetrics recs).avgScore * 100 ∧
          (calculateMetrics recs).avgScore * 100 ≤ 100) := by
  constructor
  · intro hf
    unfold hybridFuse at hf
    cases hcl : scoreLookup collab movieId with
    | none =>
      cases hct : scoreLookup content movieId with
      | none => rw [hcl, hct] at hf; cases hf
      | some t =>
        rw [hcl, hct] at hf
        injection hf with hs
        exact hs ▸ minmaxNorm_bounds (scoreLookup_mem hct)
    | some c =>
      cases hct : scoreLookup content movieId with
      | none =>
        rw [hcl, hct] at hf
        injection hf with hs
        exact hs ▸ minmaxNorm_bounds (scoreLookup_mem hcl)
      | some t =>
        rw [hcl, hct] at hf
        injection hf with hs
        have h1 := minmaxNorm_bounds (scoreLookup_mem hcl)
        have h2 := minmaxNorm_bounds (scoreLookup_mem hct)
        subst hs
        constructor
        · exact add_nonneg (mul_nonneg hwc h1.1) (mul_nonneg hwt h2.1)
        · calc wc * minmaxNorm collab c + wt * minmaxNorm content t
              ≤ wc * 1 + wt * 1 :=
                add_le_add (mul_le_mul_of_nonneg_left h1.2 hwc)
                  (mul_le_mul_of_nonneg_left h2.2 hwt)
            _ = 1 := by rw [mul_one, mul_one, hsum]
  · intro hsc
    rcases eq_or_ne recs [] with rfl | hne
    · simp [calculateMetrics]
    · have hlen : recs.length ≠ 0 := fun h => hne (List.length_eq_zero.mp h)
      have hpos : (0 : ℚ) < (recs.length : ℚ) := by
        exact_mod_cast List.length_pos.mpr hne
      have hb := sum_scores_bounds hsc
      have havg : (calculateMetrics recs).avgScore =
          (recs.map (fun r => r.score.getD 0)).sum / (recs.length : ℚ) := by
        simp only [calculateMetrics, if_neg hlen]
        rw [foldl_add_map (fun r => r.score.getD 0) recs 0, zero_add]
      rw [havg]
      have h0 : 0 ≤ (recs.map (fun r => r.score.getD 0)).sum / (recs.length : ℚ) :=
        div_nonneg hb.1 (le_of_lt hpos)
      have h1 : (recs.map (fun r => r.score.getD 0)).sum / (recs.length : ℚ) ≤ 1 := by
        rw [div_le_one hpos]
        exact hb.2
      exact ⟨h0, h1, by linarith, by linarith⟩

/-- C4 witness: the default 60/40 weights, a collaborative-only score map and
a concrete recommendation list with score 1. -/
theorem C4_witness :
    (0 ≤ (1 : ℚ) ∧ (1 : ℚ) ≤ 1) ∧
      (0 ≤ (calculateMetrics [recSample]).avgScore ∧
        (calculateMetrics [recSample]).avgScore ≤ 1 ∧
        0 ≤ (calculateMetrics [recSample]).avgScore * 100 ∧
        (calculateMetrics [recSample]).avgScore * 100 ≤ 100) :=
  ⟨(C4_scores_in_unit_interval (6/10) (4/10) [(1, 2)] [] 1 1 [recSample]
      (by norm_num) (by norm_num) (by norm_num)).1 (by decide),
   (C4_scores_in_unit_interval (6/10) (4/10) [(1, 2)] [] 1 1 [recSample]
      (by norm_num) (by norm_num) (by norm_num)).2 (by decide)⟩
